import Mathlib

/-!
Shallow embedding of `lbrynet/schema/signer.py` (the claim-signing subsystem of
lbry-sdk): curve-keyed signer classes, the raw deterministic signing helper
`sign`, the claim-signing protocol `sign_stream_claim` (detached and legacy
modes), and the curve registry `get_signer`.

Modelling conventions:
* bytes are `List Nat`;
* the external collaborators that are out of scope for the subsystem
  (hashlib digests, the ecdsa deterministic-signature primitive, the base-58
  address codec, the base-64 field normaliser) are bundled in an `Env`
  structure, so every theorem is universally quantified over them;
* Python exceptions become `Except SignerError`;
* each call of `sign_stream_claim` additionally returns the number of
  cryptographic operations (hash-and-sign invocations of `Signer.sign`) it
  performed before returning, mirroring the spy/counter the spec proposes for
  testing; an error paired with count 0 was raised before any cryptography ran.
-/

namespace LbrySigner

abbrev Bytes := List Nat

/-- The three named curve identifiers supported by the signer classes. -/
inductive CurveId
  | NIST256p
  | NIST384p
  | SECP256k1
  deriving DecidableEq

/-- The hash-algorithm identifiers (`SHA256`, `SHA384`) used as `HASHFUNC_NAME`. -/
inductive HashName
  | SHA256
  | SHA384
  deriving DecidableEq

/-- The private-key object held by a signer.  `signingKey` models a genuine
`ecdsa.SigningKey`; `duckKey` models any other object that still exposes
`sign_digest_deterministic` (Python is duck-typed, and the constructor of
`NIST_ECDSASigner` accepts any object).  The `isinstance` guard in the legacy
path of `sign_stream_claim` distinguishes the two.  Both carry opaque key
material, modelled as a `Nat`. -/
inductive PrivateKey
  | signingKey (material : Nat)
  | duckKey (material : Nat)
  deriving DecidableEq

/-- The opaque key material of a private-key object. -/
def keyMaterial : PrivateKey → Nat
  | .signingKey m => m
  | .duckKey m => m

/-- `isinstance(self.private_key, ecdsa.SigningKey)`. -/
def isSigningKey : PrivateKey → Bool
  | .signingKey _ => true
  | .duckKey _ => false

/-- The external collaborators of the signing subsystem, kept abstract:
`sha256`/`sha384` are the hashlib digests; `signDigest key digest nonce` is the
curve primitive's digest-signing entry point, made deterministic by the code by
always passing the RFC-6979 nonce `rfc6979 key digest` derived from the key and
the digest (this is what `sign_digest_deterministic` does); `decodeAddress` is
the base-58 address codec (`none` on malformed input); `b64decode` is the
per-field byte normalisation applied by `decode_b64_fields`. -/
structure Env where
  sha256 : Bytes → Bytes
  sha384 : Bytes → Bytes
  signDigest : Nat → Bytes → Nat → Bytes
  rfc6979 : Nat → Bytes → Nat
  decodeAddress : String → Option Bytes
  b64decode : Bytes → Bytes

/-- Dispatch a hash-algorithm identifier to the corresponding digest. -/
def hashBytes (env : Env) : HashName → Bytes → Bytes
  | .SHA256 => env.sha256
  | .SHA384 => env.sha384

/-- `HASHFUNC_NAME` of the signer class bound to a curve: the base class fixes
SHA-256, `NIST384pSigner` overrides it with SHA-384, `NIST256pSigner` and
`SECP256k1Signer` inherit SHA-256. -/
def hashfuncOf : CurveId → HashName
  | .NIST384p => .SHA384
  | _ => .SHA256

/-- A signer instance: the `CURVE_NAME` of its class and its private key. -/
structure Signer where
  curveName : CurveId
  privateKey : PrivateKey
  deriving DecidableEq

/-- The errors raised by this module.  `InvalidCertificateId` is the failure of
`validate_claim_id`; `InvalidAddress` the failure of `decode_address`;
`MissingName` the failed `assert name`; `UnsupportedCurveForDetached` the
failed `assert self.CURVE_NAME == SECP256k1`; `NotASigningKey` the legacy
path's `Exception("Not given a signing key")`; `StreamFieldMissing` the
`KeyError` of the legacy path's lookup of the `stream` field; `UnknownCurve`
the failure of `get_signer`. -/
inductive SignerError
  | InvalidCertificateId
  | InvalidAddress
  | MissingName
  | UnsupportedCurveForDetached
  | NotASigningKey
  | StreamFieldMissing
  | UnknownCurve
  deriving DecidableEq

/-- Modelled from the spec: `validate_claim_id` (the claim-id syntactic
validator from `lbrynet.schema.validator`, whose code is not under `src/`)
performs a fixed length/charset check: exactly 40 characters, all lowercase
hex digits. -/
def validate_claim_id (s : String) : Bool :=
  s.length == 40 && s.data.all fun c =>
    (decide ('0' ≤ c) && decide (c ≤ '9')) || (decide ('a' ≤ c) && decide (c ≤ 'f'))

/-- Numeric value of a hex digit (0 on non-hex input, which the call sites
exclude via `validate_claim_id`). -/
def hexVal (c : Char) : Nat :=
  if '0' ≤ c ∧ c ≤ '9' then c.toNat - '0'.toNat
  else if 'a' ≤ c ∧ c ≤ 'f' then c.toNat - 'a'.toNat + 10
  else if 'A' ≤ c ∧ c ≤ 'F' then c.toNat - 'A'.toNat + 10
  else 0

/-- Pairwise hex decoding of a character list (`binascii.unhexlify`). -/
def unhexlifyAux : List Char → Bytes
  | c1 :: c2 :: rest => (16 * hexVal c1 + hexVal c2) :: unhexlifyAux rest
  | _ => []

/-- `binascii.unhexlify`: hex string to raw bytes. -/
def unhexlify (s : String) : Bytes := unhexlifyAux s.data

/-- UTF-8 encoding of a string (`str.encode()`), modelled as the list of code
points; this coincides with UTF-8 on the ASCII range, which is all the claims
exercise. -/
def strToBytes (s : String) : Bytes := s.data.map Char.toNat

/-- Python `str.lower()`, modelled as ASCII case folding of the character
list (it coincides with Python on the ASCII range). -/
def pyLower (s : String) : String := ⟨s.data.map Char.toLower⟩

/-- A claim object as this module sees it: its signature-excluded serialized
bytes (`serialized_no_signature`) and its decoded field mapping
(`protobuf_dict`), with base-64-encoded byte fields. -/
structure Claim where
  serialized_no_signature : Bytes
  protobuf_dict : List (String × Bytes)
  deriving DecidableEq

/-- `decode_b64_fields`: byte-field normalisation of a field mapping; the keys
are untouched, every value passes through the base-64 decoder. -/
def decode_b64_fields (env : Env) (fields : List (String × Bytes)) :
    List (String × Bytes) :=
  fields.map fun p => (p.1, env.b64decode p.2)

/-- The version constant `V_0_0_1` (an opaque token). -/
def V_0_0_1 : Nat := 1

/-- The `sig_dict` structure the legacy path splices into the claim:
`{version, signatureType, signature, certificateId}`. -/
structure SigDict where
  version : Nat
  signatureType : CurveId
  signature : Bytes
  certificateId : Bytes
  deriving DecidableEq

/-- The legacy `msg` structure: `{version, stream, publisherSignature}`. -/
structure LegacyMsg where
  version : Nat
  stream : Bytes
  publisherSignature : SigDict
  deriving DecidableEq

/-- Wire tag of a curve identifier inside the serialized claim. -/
def curveTag : CurveId → Nat
  | .NIST256p => 0
  | .NIST384p => 1
  | .SECP256k1 => 2

/-- Length-prefixed encoding of a byte string inside the claim serialization. -/
def encodeBytes (b : Bytes) : Bytes := b.length :: b

/-- Modelled from the spec: the claim codec's re-serialization
(`proto.SerializeToString()`) of the legacy message, which is not under
`src/`.  The exact wire format is immaterial to the claims; what matters is
that the embedded `publisherSignature` survives the round trip, so the model
uses a simple injective length-prefixed layout. -/
def serializeToString (m : LegacyMsg) : Bytes :=
  m.version :: (encodeBytes m.stream ++
    (m.publisherSignature.version :: curveTag m.publisherSignature.signatureType ::
      (encodeBytes m.publisherSignature.signature ++
        encodeBytes m.publisherSignature.certificateId)))

/-- Read one length-prefixed byte string, returning it and the remainder. -/
def readBytes : Bytes → Option (Bytes × Bytes)
  | n :: rest => if rest.length < n then none else some (rest.take n, rest.drop n)
  | [] => none

/-- Inverse of `curveTag`. -/
def readCurveTag : Nat → Option CurveId
  | 0 => some .NIST256p
  | 1 => some .NIST384p
  | 2 => some .SECP256k1
  | _ => none

/-- Modelled from the spec: the signature parser (`Signature.flagged_parse`,
not under `src/`): given fully serialized claim bytes it extracts the embedded
`publisherSignature` back into a structured envelope. -/
def flagged_parse (bs : Bytes) : Option SigDict :=
  match bs with
  | [] => none
  | _v :: rest =>
    match readBytes rest with
    | none => none
    | some (_stream, rest2) =>
      match rest2 with
      | sv :: ct :: rest3 =>
        match readCurveTag ct with
        | none => none
        | some cid =>
          match readBytes rest3 with
          | none => none
          | some (sig, rest4) =>
            match readBytes rest4 with
            | some (cert, []) => some ⟨sv, cid, sig, cert⟩
            | _ => none
      | _ => none

/-- The result of `sign_stream_claim`: either the detached pair (the claim
reloaded from its normalised fields, together with the
`Signature(NAMED_SECP256K1(signature, raw_cert_id, serialized_no_signature))`
envelope) or the legacy pair (the rebuilt claim message and the signature
descriptor re-extracted from its serialization by `flagged_parse`). -/
inductive SignResult
  | detachedResult (loadedClaim : List (String × Bytes))
      (signature certificateId signedClaimBytes : Bytes)
  | legacyResult (proto : LegacyMsg) (reparsed : Option SigDict)
  deriving DecidableEq

/-- `NIST_ECDSASigner.sign`: join the byte-string fields, hash the result with
the class's `HASHFUNC`, and sign the digest with
`sign_digest_deterministic` — the primitive's digest-signing entry point with
the RFC-6979 nonce derived from the key and the digest. -/
def Signer.sign (env : Env) (s : Signer) (fields : List Bytes) : Bytes :=
  let digest := hashBytes env (hashfuncOf s.curveName) fields.flatten
  env.signDigest (keyMaterial s.privateKey) digest
    (env.rfc6979 (keyMaterial s.privateKey) digest)

/-- `NIST_ECDSASigner.sign_stream_claim`, step for step.  The extra `rng`
argument models the per-call ambient randomness a randomized signer would
consume; the code signs through `sign_digest_deterministic`, so it is never
consulted.  The second component of the result counts the cryptographic
operations (calls of `Signer.sign`, each one hash plus one signature)
performed before the call returned. -/
def sign_stream_claim (env : Env) (s : Signer) (claim : Claim)
    (claim_address : String) (cert_claim_id : String) (name : String)
    (detached : Bool) (_rng : Nat) : Except SignerError SignResult × Nat :=
  if validate_claim_id cert_claim_id then
    let raw_cert_id := unhexlify cert_claim_id
    match env.decodeAddress claim_address with
    | none => (.error .InvalidAddress, 0)
    | some decoded_addr =>
      if detached then
        if name = "" then (.error .MissingName, 0)
        else if s.curveName ≠ CurveId.SECP256k1 then
          (.error .UnsupportedCurveForDetached, 0)
        else
          let signature := s.sign env
            [strToBytes (pyLower name), decoded_addr,
              claim.serialized_no_signature, raw_cert_id]
          (.ok (.detachedResult (decode_b64_fields env claim.protobuf_dict)
            signature raw_cert_id claim.serialized_no_signature), 1)
      else
        let signature := s.sign env
          [decoded_addr, claim.serialized_no_signature, raw_cert_id]
        if ¬ isSigningKey s.privateKey then (.error .NotASigningKey, 1)
        else
          match (decode_b64_fields env claim.protobuf_dict).lookup "stream" with
          | none => (.error .StreamFieldMissing, 1)
          | some streamField =>
            let sig_dict : SigDict :=
              ⟨V_0_0_1, s.curveName, signature, raw_cert_id⟩
            let proto : LegacyMsg := ⟨V_0_0_1, streamField, sig_dict⟩
            (.ok (.legacyResult proto (flagged_parse (serializeToString proto))), 1)
  else (.error .InvalidCertificateId, 0)

/-- A signer class as the registry hands it out: the curve it is bound to. -/
structure SignerClass where
  curveName : CurveId
  deriving DecidableEq

def NIST256pSigner : SignerClass := ⟨.NIST256p⟩

def NIST384pSigner : SignerClass := ⟨.NIST384p⟩

def SECP256k1Signer : SignerClass := ⟨.SECP256k1⟩

/-- Instantiating a signer class with a private key (`cls(private_key)`). -/
def SignerClass.init (cls : SignerClass) (k : PrivateKey) : Signer :=
  ⟨cls.curveName, k⟩

/-- The string constants naming the curves (`lbrynet.schema.schema.NIST256p`
etc., three distinct identifiers; their module of definition is not under
`src/`). -/
def NIST256p : String := "NIST256p"

def NIST384p : String := "NIST384p"

def SECP256k1 : String := "SECP256k1"

/-- `get_signer`: the curve registry, a pure chain of equality tests. -/
def get_signer (curve : String) : Except SignerError SignerClass :=
  if curve = NIST256p then .ok NIST256pSigner
  else if curve = NIST384p then .ok NIST384pSigner
  else if curve = SECP256k1 then .ok SECP256k1Signer
  else .error .UnknownCurve

instance {ε α : Type} [DecidableEq ε] [DecidableEq α] : DecidableEq (Except ε α) :=
  fun a b =>
    match a, b with
    | .ok x, .ok y =>
      if h : x = y then .isTrue (by rw [h]) else .isFalse (by simp [h])
    | .error x, .error y =>
      if h : x = y then .isTrue (by rw [h]) else .isFalse (by simp [h])
    | .ok _, .error _ => .isFalse (by simp)
    | .error _, .ok _ => .isFalse (by simp)

/-- A concrete environment used by the witness theorems: the external digests,
the signing primitive and the codecs are instantiated with small injective
stand-ins so that the whole pipeline evaluates. -/
def envW : Env :=
  ⟨fun b => 0 :: b, fun b => 1 :: b, fun k d n => k :: n :: d,
   fun k d => k + d.length,
   fun a => if a = "" then none else some (strToBytes a),
   fun b => b⟩

/-- A well-formed 40-character lowercase-hex certificate id. -/
def cidW : String := "0123456789abcdef0123456789abcdef01234567"

/-- A concrete claim whose decoded field mapping has a `stream` entry. -/
def claimW : Claim := ⟨[9, 9, 9], [("stream", [42])]⟩

/-- A concrete claim with no `stream` entry (e.g. a certificate claim). -/
def claimCertW : Claim := ⟨[9, 9, 9], [("certificate", [7])]⟩

/-- A SECP256k1 signer holding a genuine signing key. -/
def signerW : Signer := ⟨.SECP256k1, .signingKey 7⟩

/-- A NIST256p signer holding a genuine signing key. -/
def signerN256W : Signer := ⟨.NIST256p, .signingKey 7⟩

/-- The signature descriptor produced by the concrete legacy run of the
witness fixtures. -/
def sigDictW : SigDict :=
  ⟨V_0_0_1, signerW.curveName,
    Signer.sign envW signerW
      [strToBytes "ad", claimW.serialized_no_signature, unhexlify cidW],
    unhexlify cidW⟩

/-- The legacy claim message rebuilt by the concrete legacy run of the
witness fixtures. -/
def protoW : LegacyMsg := ⟨V_0_0_1, envW.b64decode [42], sigDictW⟩

/-- Reading back a length-prefixed byte string returns it and the remainder. -/
theorem readBytes_encodeBytes (b rest : Bytes) :
    readBytes (encodeBytes b ++ rest) = some (b, rest) := by
  have hlen : ¬ (b ++ rest).length < b.length := by simp
  simp [readBytes, encodeBytes, hlen]

/-- `readCurveTag` inverts `curveTag`. -/
theorem readCurveTag_curveTag (c : CurveId) : readCurveTag (curveTag c) = some c := by
  cases c <;> rfl

/-- The signature parser recovers exactly the `publisherSignature` that was
spliced into the legacy message before serialization. -/
theorem flagged_parse_serializeToString (m : LegacyMsg) :
    flagged_parse (serializeToString m) = some m.publisherSignature := by
  obtain ⟨v, st, sd⟩ := m
  obtain ⟨sv, ctc, sig, cert⟩ := sd
  have h1 := readBytes_encodeBytes st
    (sv :: curveTag ctc :: (encodeBytes sig ++ encodeBytes cert))
  have h2 := readBytes_encodeBytes sig (encodeBytes cert)
  have h3 : readBytes (encodeBytes cert) = some (cert, []) := by
    simpa using readBytes_encodeBytes cert []
  simp [serializeToString, flagged_parse, h1, h2, h3, readCurveTag_curveTag]

/-- C1: in detached mode (detached signature, non-empty name, SECP256k1
signer, valid certificate id and address) the byte sequence hashed and signed
is exactly the concatenation of the lower-cased UTF-8 name, the decoded binary
address, the claim's signature-excluded serialized bytes, and the hex-decoded
certificate id; consequently signing with name `Foo` and name `foo` yields
identical results. -/
theorem detached_signed_bytes (env : Env) (s : Signer) (claim : Claim)
    (addr cid name : String) (d : Bytes) (rng : Nat)
    (hcid : validate_claim_id cid = true)
    (haddr : env.decodeAddress addr = some d)
    (hname : name ≠ "")
    (hcurve : s.curveName = CurveId.SECP256k1) :
    (sign_stream_claim env s claim addr cid name true rng).1 =
      Except.ok (SignResult.detachedResult
        (decode_b64_fields env claim.protobuf_dict)
        (env.signDigest (keyMaterial s.privateKey)
          (env.sha256 (strToBytes (pyLower name) ++ d ++
            claim.serialized_no_signature ++ unhexlify cid))
          (env.rfc6979 (keyMaterial s.privateKey)
            (env.sha256 (strToBytes (pyLower name) ++ d ++
              claim.serialized_no_signature ++ unhexlify cid))))
        (unhexlify cid) claim.serialized_no_signature) ∧
    sign_stream_claim env s claim addr cid "Foo" true rng =
      sign_stream_claim env s claim addr cid "foo" true rng := by
  constructor
  · simp [sign_stream_claim, hcid, haddr, hname, hcurve, Signer.sign,
      hashBytes, hashfuncOf]
  · have h2 : pyLower "Foo" = pyLower "foo" := by decide
    have hF : ("Foo" : String) ≠ "" := by decide
    have hf : ("foo" : String) ≠ "" := by decide
    simp [sign_stream_claim, hcid, haddr, hcurve, hF, hf, h2]

/-- Witness for C1 at concrete inputs. -/
theorem detached_signed_bytes_witness :
    (sign_stream_claim envW signerW claimW "ad" cidW "MyChannel" true 0).1 =
      Except.ok (SignResult.detachedResult
        (decode_b64_fields envW claimW.protobuf_dict)
        (envW.signDigest (keyMaterial signerW.privateKey)
          (envW.sha256 (strToBytes (pyLower "MyChannel") ++ strToBytes "ad" ++
            claimW.serialized_no_signature ++ unhexlify cidW))
          (envW.rfc6979 (keyMaterial signerW.privateKey)
            (envW.sha256 (strToBytes (pyLower "MyChannel") ++ strToBytes "ad" ++
              claimW.serialized_no_signature ++ unhexlify cidW))))
        (unhexlify cidW) claimW.serialized_no_signature) ∧
    sign_stream_claim envW signerW claimW "ad" cidW "Foo" true 0 =
      sign_stream_claim envW signerW claimW "ad" cidW "foo" true 0 :=
  detached_signed_bytes envW signerW claimW "ad" cidW "MyChannel" (strToBytes "ad") 0
    (by decide) (by decide) (by decide) rfl

/-- C2: in legacy mode the byte sequence hashed and signed is exactly the
concatenation of the decoded binary address, the claim's signature-excluded
serialized bytes, and the hex-decoded certificate id; the `name` argument does
not contribute (no lower-casing either), as the second conjunct shows. -/
theorem legacy_signed_bytes (env : Env) (s : Signer) (claim : Claim)
    (addr cid name : String) (d streamField : Bytes) (rng : Nat)
    (hcid : validate_claim_id cid = true)
    (haddr : env.decodeAddress addr = some d)
    (hkey : isSigningKey s.privateKey = true)
    (hstream : (decode_b64_fields env claim.protobuf_dict).lookup "stream" =
      some streamField) :
    (sign_stream_claim env s claim addr cid name false rng).1 =
      Except.ok (SignResult.legacyResult
        ⟨V_0_0_1, streamField,
          ⟨V_0_0_1, s.curveName,
            env.signDigest (keyMaterial s.privateKey)
              (hashBytes env (hashfuncOf s.curveName)
                (d ++ claim.serialized_no_signature ++ unhexlify cid))
              (env.rfc6979 (keyMaterial s.privateKey)
                (hashBytes env (hashfuncOf s.curveName)
                  (d ++ claim.serialized_no_signature ++ unhexlify cid))),
            unhexlify cid⟩⟩
        (some ⟨V_0_0_1, s.curveName,
          env.signDigest (keyMaterial s.privateKey)
            (hashBytes env (hashfuncOf s.curveName)
              (d ++ claim.serialized_no_signature ++ unhexlify cid))
            (env.rfc6979 (keyMaterial s.privateKey)
              (hashBytes env (hashfuncOf s.curveName)
                (d ++ claim.serialized_no_signature ++ unhexlify cid))),
          unhexlify cid⟩)) ∧
    ∀ name1 name2 : String,
      sign_stream_claim env s claim addr cid name1 false rng =
        sign_stream_claim env s claim addr cid name2 false rng := by
  constructor
  · simp [sign_stream_claim, hcid, haddr, hkey, hstream, Signer.sign,
      flagged_parse_serializeToString]
  · intro name1 name2
    rfl

/-- Witness for C2 at concrete inputs. -/
theorem legacy_signed_bytes_witness :
    (sign_stream_claim envW signerW claimW "ad" cidW "MyChannel" false 0).1 =
      Except.ok (SignResult.legacyResult
        ⟨V_0_0_1, envW.b64decode [42],
          ⟨V_0_0_1, signerW.curveName,
            envW.signDigest (keyMaterial signerW.privateKey)
              (hashBytes envW (hashfuncOf signerW.curveName)
                (strToBytes "ad" ++ claimW.serialized_no_signature ++ unhexlify cidW))
              (envW.rfc6979 (keyMaterial signerW.privateKey)
                (hashBytes envW (hashfuncOf signerW.curveName)
                  (strToBytes "ad" ++ claimW.serialized_no_signature ++ unhexlify cidW))),
            unhexlify cidW⟩⟩
        (some ⟨V_0_0_1, signerW.curveName,
          envW.signDigest (keyMaterial signerW.privateKey)
            (hashBytes envW (hashfuncOf signerW.curveName)
              (strToBytes "ad" ++ claimW.serialized_no_signature ++ unhexlify cidW))
            (envW.rfc6979 (keyMaterial signerW.privateKey)
              (hashBytes envW (hashfuncOf signerW.curveName)
                (strToBytes "ad" ++ claimW.serialized_no_signature ++ unhexlify cidW))),
          unhexlify cidW⟩)) :=
  (legacy_signed_bytes envW signerW claimW "ad" cidW "MyChannel" (strToBytes "ad")
    (envW.b64decode [42]) 0 (by decide) (by decide) rfl (by decide)).1

/-- C3 counterexample: a concrete legacy invocation whose inputs pass every
check that precedes the signing call, but whose private-key object is not a
genuine signing key.  The call fails with `NotASigningKey` — a failure of the
error taxonomy — yet the cryptographic-operation counter is 1: the byte
sequence was hashed and signed before the `isinstance` guard ran, refuting the
claim that every taxonomy failure is detected before any cryptographic
operation. -/
theorem notASigningKey_after_crypto :
    sign_stream_claim envW ⟨CurveId.SECP256k1, PrivateKey.duckKey 5⟩ claimW
      "ad" cidW "x" false 0 =
      (Except.error SignerError.NotASigningKey, 1) := by decide

/-- C3 amended: the four precondition failures (`InvalidCertificateId`,
`InvalidAddress`, `MissingName`, `UnsupportedCurveForDetached`) are detected
before any cryptographic operation runs (counter 0), but the two legacy-path
failures (`NotASigningKey` and the missing-`stream` lookup failure) are only
raised after the signature has been computed (counter 1). -/
theorem validation_before_crypto (env : Env) (s : Signer) (claim : Claim)
    (addr cid name : String) (det : Bool) (rng : Nat) :
    (((sign_stream_claim env s claim addr cid name det rng).1 =
        Except.error SignerError.InvalidCertificateId ∨
      (sign_stream_claim env s claim addr cid name det rng).1 =
        Except.error SignerError.InvalidAddress ∨
      (sign_stream_claim env s claim addr cid name det rng).1 =
        Except.error SignerError.MissingName ∨
      (sign_stream_claim env s claim addr cid name det rng).1 =
        Except.error SignerError.UnsupportedCurveForDetached) →
      (sign_stream_claim env s claim addr cid name det rng).2 = 0) ∧
    (((sign_stream_claim env s claim addr cid name det rng).1 =
        Except.error SignerError.NotASigningKey ∨
      (sign_stream_claim env s claim addr cid name det rng).1 =
        Except.error SignerError.StreamFieldMissing) →
      (sign_stream_claim env s claim addr cid name det rng).2 = 1) := by
  by_cases hv : validate_claim_id cid
  · cases hd : env.decodeAddress addr with
    | none => simp [sign_stream_claim, hv, hd]
    | some d =>
      cases det with
      | true =>
        by_cases hn : name = ""
        · simp [sign_stream_claim, hv, hd, hn]
        · by_cases hc : s.curveName = CurveId.SECP256k1
          · simp [sign_stream_claim, hv, hd, hn, hc]
          · simp [sign_stream_claim, hv, hd, hn, hc]
      | false =>
        cases hk : isSigningKey s.privateKey with
        | false => simp [sign_stream_claim, hv, hd, hk]
        | true =>
          cases hs2 : (decode_b64_fields env claim.protobuf_dict).lookup "stream" with
          | none => simp [sign_stream_claim, hv, hd, hk, hs2]
          | some st => simp [sign_stream_claim, hv, hd, hk, hs2]
  · simp [sign_stream_claim, hv]

/-- Witness for the amended C3 at a concrete input: an invalid certificate id
is rejected with zero cryptographic operations performed. -/
theorem validation_before_crypto_witness :
    (sign_stream_claim envW signerW claimW "ad" "zz" "n" true 0).2 = 0 :=
  (validation_before_crypto envW signerW claimW "ad" "zz" "n" true 0).1
    (Or.inl (by decide))

/-- C4: with detached mode and otherwise valid inputs, an empty name fails
with `MissingName`; a non-empty name on a NIST256p or NIST384p signer fails
with `UnsupportedCurveForDetached`; a non-empty name on a SECP256k1 signer
succeeds.  (The checks run in this order, so an empty name is reported as
`MissingName` regardless of the curve.) -/
theorem detached_preconditions (env : Env) (s : Signer) (claim : Claim)
    (addr cid name : String) (d : Bytes) (rng : Nat)
    (hcid : validate_claim_id cid = true)
    (haddr : env.decodeAddress addr = some d) :
    (name = "" →
      sign_stream_claim env s claim addr cid name true rng =
        (Except.error SignerError.MissingName, 0)) ∧
    (name ≠ "" →
      (s.curveName = CurveId.NIST256p ∨ s.curveName = CurveId.NIST384p) →
      sign_stream_claim env s claim addr cid name true rng =
        (Except.error SignerError.UnsupportedCurveForDetached, 0)) ∧
    (name ≠ "" → s.curveName = CurveId.SECP256k1 →
      ∃ r : SignResult,
        (sign_stream_claim env s claim addr cid name true rng).1 =
          Except.ok r) := by
  refine ⟨?_, ?_, ?_⟩
  · intro hn
    simp [sign_stream_claim, hcid, haddr, hn]
  · intro hn hc
    have hne : s.curveName ≠ CurveId.SECP256k1 := by
      rcases hc with h | h <;> simp [h]
    simp [sign_stream_claim, hcid, haddr, hn, hne]
  · intro hn hc
    refine ⟨SignResult.detachedResult (decode_b64_fields env claim.protobuf_dict)
      (Signer.sign env s [strToBytes (pyLower name), d,
        claim.serialized_no_signature, unhexlify cid])
      (unhexlify cid) claim.serialized_no_signature, ?_⟩
    simp [sign_stream_claim, hcid, haddr, hn, hc]

/-- Witness for C4 at a concrete input: detached signing on a NIST256p signer
with a non-empty name fails with `UnsupportedCurveForDetached`. -/
theorem detached_preconditions_witness :
    sign_stream_claim envW signerN256W claimW "ad" cidW "MyChannel" true 0 =
      (Except.error SignerError.UnsupportedCurveForDetached, 0) :=
  (detached_preconditions envW signerN256W claimW "ad" cidW "MyChannel"
    (strToBytes "ad") 0 (by decide) (by decide)).2.1 (by decide) (Or.inl rfl)

/-- C5: a certificate id that fails the syntactic validation is rejected with
`InvalidCertificateId` and a cryptographic-operation count of 0 — no hashing
happened and the primitive signing function was never invoked — in both modes
and for every signer. -/
theorem invalid_certificate_id_before_crypto (env : Env) (s : Signer)
    (claim : Claim) (addr cid name : String) (det : Bool) (rng : Nat)
    (hcid : validate_claim_id cid = false) :
    sign_stream_claim env s claim addr cid name det rng =
      (Except.error SignerError.InvalidCertificateId, 0) := by
  simp [sign_stream_claim, hcid]

/-- Witness for C5 at a concrete input (a 39-character id is too short). -/
theorem invalid_certificate_id_before_crypto_witness :
    sign_stream_claim envW signerW claimW "ad"
      "0123456789abcdef0123456789abcdef0123456" "n" true 0 =
      (Except.error SignerError.InvalidCertificateId, 0) :=
  invalid_certificate_id_before_crypto envW signerW claimW "ad"
    "0123456789abcdef0123456789abcdef0123456" "n" true 0 (by decide)

/-- C6: signing is deterministic.  The `rng` argument stands for the per-call
ambient randomness a randomized signer would consume; because the code signs
through `sign_digest_deterministic` (RFC-6979 nonce derived from the key and
the digest), two invocations with the same key and the same
`(claim, address, certificate_id, name, detached)` tuple produce identical
results, whatever randomness was available to each call. -/
theorem signing_deterministic (env : Env) (s : Signer) (claim : Claim)
    (addr cid name : String) (det : Bool) (rng1 rng2 : Nat) :
    sign_stream_claim env s claim addr cid name det rng1 =
      sign_stream_claim env s claim addr cid name det rng2 := rfl

/-- C7: in every successful legacy invocation, re-parsing the final serialized
claim with the signature parser recovers exactly the signature that was
computed directly over the pre-splice byte sequence — decoded address bytes,
then the signature-excluded claim bytes, then the raw certificate id. -/
theorem legacy_roundtrip (env : Env) (s : Signer) (claim : Claim)
    (addr cid name : String) (d streamField : Bytes) (rng : Nat)
    (hcid : validate_claim_id cid = true)
    (haddr : env.decodeAddress addr = some d)
    (hkey : isSigningKey s.privateKey = true)
    (hstream : (decode_b64_fields env claim.protobuf_dict).lookup "stream" =
      some streamField) :
    ∀ (proto : LegacyMsg) (reparsed : Option SigDict),
      (sign_stream_claim env s claim addr cid name false rng).1 =
        Except.ok (SignResult.legacyResult proto reparsed) →
      reparsed = flagged_parse (serializeToString proto) ∧
      reparsed = some proto.publisherSignature ∧
      proto.publisherSignature.signature =
        s.sign env [d, claim.serialized_no_signature, unhexlify cid] := by
  intro proto reparsed h
  simp [sign_stream_claim, hcid, haddr, hkey, hstream] at h
  obtain ⟨h1, h2⟩ := h
  subst h1
  subst h2
  exact ⟨rfl, flagged_parse_serializeToString _, rfl⟩

/-- Witness for C7 at concrete inputs. -/
theorem legacy_roundtrip_witness :
    some sigDictW = flagged_parse (serializeToString protoW) ∧
    some sigDictW = some protoW.publisherSignature ∧
    protoW.publisherSignature.signature =
      Signer.sign envW signerW
        [strToBytes "ad", claimW.serialized_no_signature, unhexlify cidW] :=
  legacy_roundtrip envW signerW claimW "ad" cidW "n" (strToBytes "ad")
    (envW.b64decode [42]) 0 (by decide) (by decide) rfl (by decide)
    protoW (some sigDictW) (by decide)

/-- C8: every signing operation hashes the concatenated byte fields with the
hash algorithm fixed by the signer's curve profile — SHA-256 for NIST256p and
SECP256k1 signers, SHA-384 for NIST384p signers — and signs the digest through
the primitive's digest entry point with the deterministically derived
RFC-6979 nonce. -/
theorem hash_fixed_by_curve (env : Env) (s : Signer) (fields : List Bytes) :
    s.sign env fields =
      env.signDigest (keyMaterial s.privateKey)
        ((match s.curveName with
          | CurveId.NIST256p => env.sha256
          | CurveId.SECP256k1 => env.sha256
          | CurveId.NIST384p => env.sha384) fields.flatten)
        (env.rfc6979 (keyMaterial s.privateKey)
          ((match s.curveName with
            | CurveId.NIST256p => env.sha256
            | CurveId.SECP256k1 => env.sha256
            | CurveId.NIST384p => env.sha384) fields.flatten)) := by
  obtain ⟨c, k⟩ := s
  cases c <;> rfl

/-- C9: the curve registry maps each of the three supported identifiers to the
signer class bound to that same curve, and fails with `UnknownCurve` on every
other input; it is a pure lookup with no side effects. -/
theorem get_signer_registry :
    (get_signer NIST256p = Except.ok NIST256pSigner ∧
      NIST256pSigner.curveName = CurveId.NIST256p) ∧
    (get_signer NIST384p = Except.ok NIST384pSigner ∧
      NIST384pSigner.curveName = CurveId.NIST384p) ∧
    (get_signer SECP256k1 = Except.ok SECP256k1Signer ∧
      SECP256k1Signer.curveName = CurveId.SECP256k1) ∧
    ∀ c : String, c ≠ NIST256p → c ≠ NIST384p → c ≠ SECP256k1 →
      get_signer c = Except.error SignerError.UnknownCurve := by
  refine ⟨⟨by decide, rfl⟩, ⟨by decide, rfl⟩, ⟨by decide, rfl⟩, ?_⟩
  intro c h1 h2 h3
  simp [get_signer, h1, h2, h3]

/-- Witness for C9's unknown-curve branch at a concrete input. -/
theorem get_signer_registry_witness :
    get_signer "bogus" = Except.error SignerError.UnknownCurve :=
  get_signer_registry.2.2.2 "bogus" (by decide) (by decide) (by decide)

/-- C10: the legacy path extracts exactly the `stream` entry of the decoded
field mapping, so legacy signing succeeds only for claims having one; on a
claim without it (e.g. a certificate claim) the call fails even though all
stated preconditions hold — and the cryptographic-operation counter is 1: the
signature had already been computed when the failure occurred. -/
theorem legacy_requires_stream (env : Env) (s : Signer) (claim : Claim)
    (addr cid name : String) (d : Bytes) (rng : Nat)
    (hcid : validate_claim_id cid = true)
    (haddr : env.decodeAddress addr = some d)
    (hkey : isSigningKey s.privateKey = true)
    (hstream : (decode_b64_fields env claim.protobuf_dict).lookup "stream" =
      none) :
    sign_stream_claim env s claim addr cid name false rng =
      (Except.error SignerError.StreamFieldMissing, 1) ∧
    ∀ (claim2 : Claim) (r : SignResult),
      (sign_stream_claim env s claim2 addr cid name false rng).1 =
        Except.ok r →
      (decode_b64_fields env claim2.protobuf_dict).lookup "stream" ≠ none := by
  constructor
  · simp [sign_stream_claim, hcid, haddr, hkey, hstream]
  · intro claim2 r hr hnone
    simp [sign_stream_claim, hcid, haddr, hkey, hnone] at hr

/-- Witness for C10 at a concrete input: legacy-signing a claim with no
`stream` field fails after the signature was computed. -/
theorem legacy_requires_stream_witness :
    sign_stream_claim envW signerW claimCertW "ad" cidW "n" false 0 =
      (Except.error SignerError.StreamFieldMissing, 1) :=
  (legacy_requires_stream envW signerW claimCertW "ad" cidW "n"
    (strToBytes "ad") 0 (by decide) (by decide) rfl (by decide)).1

end LbrySigner
